import Mathlib

/-!
Verification of the modelsmith extraction-and-retry core.

The definitions below are a shallow embedding of the Python sources:
  - `find_patterns`          from src/modelsmith/utilities.py
  - `validationLoop`, `processCandidates`, `process_response`
                             from `Forge._process_response` in src/modelsmith/forge.py
  - `attemptLoop`, `generate` from `Forge.generate` in src/modelsmith/forge.py
                             (the tenacity `Retrying(stop=stop_after_attempt(n))`
                             loop is embedded by its documented semantics: every
                             exception raised inside a `with attempt` block is
                             recorded and retried, and after `n` attempts a
                             `RetryError` is raised)
  - `original_type`, `process_model` from src/modelsmith/response_model.py
  - `Prompt.init`, `prompt_variables`, `Prompt.render`, `process_kwargs`
                             from src/modelsmith/prompt.py

External collaborators (the regex engine behind `re.findall`, the pydantic
validation engine behind `model_validate_json`, and the jinja2 template engine)
are modelled as function parameters; small executable instances of those
parameters are defined further below so that every theorem can be exercised on
concrete inputs.
-/

namespace Modelsmith

/-- A universal type of Python runtime values, rich enough for the values the
Forge pipeline manipulates: `PyVal.none` is Python's `None`, `obj` is an object
with named fields (a pydantic model instance is an `obj`). -/
inductive PyVal where
  | none
  | int (n : Int)
  | str (s : String)
  | list (xs : List PyVal)
  | obj (fields : List (String × PyVal))
deriving Repr

/-- Python's `model is None` test on a `PyVal`. -/
def PyVal.isNone : PyVal → Bool
  | .none => true
  | _ => false

/-- The exceptions of src/modelsmith/exceptions.py, plus a `transport`
constructor standing for any exception raised by the collaborator client's
`send`, and distinct from the two exceptions the inner `except` clause of
`Forge.generate` matches. `combined` carries the list of individual validation
error messages, as `CombinedException` carries its `exceptions` sequence. -/
inductive Exc where
  | patternNotFound (msg : String)
  | combined (errs : List String)
  | transport (msg : String)
  | modelNotDerived (finalPrompt : String)
deriving Repr, DecidableEq

/-- `ResponseModelType` from src/modelsmith/enums.py. -/
inductive ResponseModelType where
  | PYDANTIC
  | PYTHON
deriving Repr, DecidableEq

/-- The `patterns` argument of `find_patterns`: a single string or an iterable
of strings (`str | Iterable[str]`). -/
inductive PatternsArg where
  | str (s : String)
  | list (ps : List String)

/-- `find_patterns` from src/modelsmith/utilities.py.  `findall` is the
external regex engine `re.findall(pattern, input_string, re.DOTALL)`, passed as
a parameter; it is expected to return the matches of `pattern` in the order
they occur in `input_string`.  Python's `str.strip()` is modelled by
`String.trim`. -/
def find_patterns (findall : String → String → List String)
    (input_string : String) (patterns : PatternsArg) : List String :=
  let ps := match patterns with
    | .str s => [s]
    | .list l => l
  ps.foldl (fun results p => results ++ ((findall p input_string).map String.trim)) []

/-- Attribute access `model.value` on a validated wrapper-model instance
(`Forge._process_response` does `model = model.value` for PYTHON response
models).  On a non-`obj` value or a missing field this returns `PyVal.none`;
that case is unreachable for instances validated against the synthesized
wrapper schema, which always has a `value` field. -/
def PyVal.getValue : PyVal → PyVal
  | .obj fields => (fields.lookup "value").getD .none
  | _ => .none

/-- The unwrap step of `Forge._process_response` (forge.py lines 150-156):
`if self.response_model.original_type == ResponseModelType.PYTHON: model =
model.value`; for PYDANTIC the validated instance itself is kept. -/
def unwrapModel (origType : ResponseModelType) (inst : PyVal) : PyVal :=
  if origType = ResponseModelType.PYTHON then inst.getValue else inst

/-- The candidate loop of `Forge._process_response`: try each JSON string in
order with `validate` (the external pydantic `model_validate_json`, whose
errors are `ValidationError` messages), unwrap and stop at the first success
(`break`), collecting every `ValidationError` raised before it.  Returns the
collected exception list together with the final value of the Python variable
`model` (initialized to `None`). -/
def validationLoop (validate : String → Except String PyVal)
    (origType : ResponseModelType) : List String → List String × PyVal
  | [] => ([], PyVal.none)
  | s :: rest =>
    match validate s with
    | .ok inst => ([], unwrapModel origType inst)
    | .error e =>
      let r := validationLoop validate origType rest
      (e :: r.1, r.2)

/-- The body of `Forge._process_response` after extraction: raise
`PatternNotFound` when no JSON string was found, otherwise run the candidate
loop and raise `CombinedException(exceptions)` when exceptions occurred and no
valid (non-`None`) model was produced. -/
def processCandidates (validate : String → Except String PyVal)
    (origType : ResponseModelType) (json_strings : List String) :
    Except Exc PyVal :=
  if json_strings.isEmpty then
    .error (.patternNotFound "No JSON output found.")
  else
    let r := validationLoop validate origType json_strings
    if !r.1.isEmpty && r.2.isNone then .error (.combined r.1)
    else .ok r.2

/-- `Forge._process_response` (forge.py lines 120-165): extract JSON strings
from the response text with `find_patterns`, then validate them. -/
def process_response (findall : String → String → List String)
    (patterns : PatternsArg) (validate : String → Except String PyVal)
    (origType : ResponseModelType) (text : String) : Except Exc PyVal :=
  processCandidates validate origType (find_patterns findall text patterns)

/-- The single-quote character. -/
def squoteC : Char := Char.ofNat 39

/-- Python's `repr` of a string: the text between single quotes (escaping of
special characters, which none of the repository's messages contain, is not
modelled). -/
def pyStrRepr (s : String) : String :=
  String.mk (squoteC :: (s.data ++ [squoteC]))

/-- Python's `f"{e.args}"` for the exceptions of exceptions.py:
`PatternNotFound(msg)` has `args = (msg,)`.  `CombinedException(exceptions)`
has `args = (exceptions,)` — `BaseException.__new__` records the constructor
arguments even though `CombinedException.__init__` does not call
`super().__init__` — so its `args` renders as the one-element tuple holding
the list of validation errors (each error's repr modelled by its message). -/
def excArgs : Exc → String
  | .patternNotFound msg => "(" ++ pyStrRepr msg ++ ",)"
  | .combined errs => "([" ++ String.intercalate ", " errs ++ "],)"
  | .transport msg => "(" ++ pyStrRepr msg ++ ",)"
  | .modelNotDerived p => "(" ++ pyStrRepr p ++ ",)"

/-- Result of the tenacity retry loop in `Forge.generate`: `outcome` is
`some m` when an attempt succeeded and set `model_response`, `none` when the
loop ended with `RetryError`; `sends` counts calls to the client's `send`;
`finalPrompt` is the value of `prepared_prompt` when the loop ends. -/
structure AttemptResult where
  outcome : Option PyVal
  sends : Nat
  finalPrompt : String
deriving Repr

/-- The `for attempt in Retrying(stop=stop_after_attempt(max_retries))` loop of
`Forge.generate` (forge.py lines 97-108), with `fuel` attempts remaining and
`attemptNumber` the 1-based attempt counter (the collaborator client may be
stateful, so `send` receives the attempt number).  One attempt: call `send`;
on its success run `proc` (= `_process_response`).  A `PatternNotFound` or
`CombinedException` from `proc` is matched by the inner `except` clause, which
appends feedback to `prepared_prompt` and re-raises.  Every exception then
reaches the `with attempt` manager, which records it; tenacity's default retry
policy retries on any `Exception`, so the loop moves to the next attempt (with
the prompt unchanged unless the inner clause updated it) until the stop
condition `stop_after_attempt` raises `RetryError`. -/
def attemptLoop (send : Nat → String → Except Exc String)
    (proc : String → Except Exc PyVal) :
    Nat → Nat → String → AttemptResult
  | 0, _, prompt => ⟨none, 0, prompt⟩
  | fuel + 1, attemptNumber, prompt =>
    match send attemptNumber prompt with
    | .error _ =>
      -- not matched by the inner except clause: prompt unchanged
      if fuel = 0 then ⟨none, 1, prompt⟩
      else
        let r := attemptLoop send proc fuel (attemptNumber + 1) prompt
        ⟨r.outcome, r.sends + 1, r.finalPrompt⟩
    | .ok text =>
      match proc text with
      | .ok m => ⟨some m, 1, prompt⟩
      | .error e =>
        let prompt2 :=
          match e with
          | .patternNotFound _ | .combined _ =>
            prompt ++ "\nTry again and fix the errors that occurred: " ++ excArgs e
          | _ => prompt
        if fuel = 0 then ⟨none, 1, prompt2⟩
        else
          let r := attemptLoop send proc fuel (attemptNumber + 1) prompt2
          ⟨r.outcome, r.sends + 1, r.finalPrompt⟩

/-- The outcome of one `Forge.generate` call: the returned value or raised
exception, together with the number of `send` calls performed. -/
structure GenerateResult where
  result : Except Exc PyVal
  sends : Nat
deriving Repr

/-- `Forge.generate` (forge.py lines 75-117) after prompt preparation:
`model_response = None`; run the retry loop; on `RetryError` raise
`ModelNotDerivedError(prepared_prompt)` when `raise_on_failure` is true,
otherwise fall through and return `model_response` (still `None`).
Models `max_retries ≥ 1` faithfully (the spec requires `max_retries ≥ 1`;
tenacity would still run one attempt for `stop_after_attempt(0)`). -/
def generate (send : Nat → String → Except Exc String)
    (proc : String → Except Exc PyVal)
    (max_retries : Nat) (raise_on_failure : Bool)
    (prepared_prompt : String) : GenerateResult :=
  let r := attemptLoop send proc max_retries 1 prepared_prompt
  match r.outcome with
  | some m => ⟨.ok m, r.sends⟩
  | none =>
    if raise_on_failure then ⟨.error (.modelNotDerived r.finalPrompt), r.sends⟩
    else ⟨.ok PyVal.none, r.sends⟩

/-- One item of a Python type's `__metadata__` tuple (as produced by
`typing.Annotated`): either a pydantic `FieldInfo` (only its description is
relevant here) or any other object. -/
inductive MetaItem where
  | fieldInfo (description : String)
  | other (tag : String)
deriving Repr, DecidableEq

/-- The reflective facts about a caller-supplied `response_model` type that
`ResponseModel` in src/modelsmith/response_model.py inspects:
`isinstance(m, types.GenericAlias)`, `isinstance(m, type)`, the result of
`issubclass(m, BaseModel)` (`Option.none` models the `TypeError` that
`issubclass` raises for unsupported arguments such as generic aliases on
Python 3.10, which is exactly what the guards avoid), and the type's
`__metadata__` (empty list when the attribute is absent). -/
structure PyTargetType where
  isGenericAlias : Bool
  isType : Bool
  issubclassBaseModel : Option Bool
  metadata : List MetaItem
deriving Repr, DecidableEq

/-- `ResponseModel.original_type` (response_model.py lines 23-39):
`PYDANTIC` iff the model is not a generic alias, is a type, and is a subclass
of `BaseModel`; the conjunction is evaluated left to right, so `issubclass` is
consulted (and can fail) only when the first two tests pass. -/
def original_type (t : PyTargetType) : Except String ResponseModelType :=
  if t.isGenericAlias then .ok ResponseModelType.PYTHON
  else if t.isType then
    match t.issubclassBaseModel with
    | Option.none => .error "TypeError: issubclass() argument is unsupported"
    | some true => .ok ResponseModelType.PYDANTIC
    | some false => .ok ResponseModelType.PYTHON
  else .ok ResponseModelType.PYTHON

/-- The schema `ResponseModel._process_model` produces: the original type
unchanged, or the synthesized one-field wrapper (`create_model("ResponseModel",
value=(response_model, field_info))`). -/
inductive AdaptedSchema where
  | original (t : PyTargetType)
  | wrapper (valueType : PyTargetType) (field : MetaItem)
deriving Repr, DecidableEq

/-- The default `FieldInfo` of `_process_model`. -/
def defaultFieldInfo : MetaItem :=
  .fieldInfo "JSON schema the response should adhere to."

/-- The wrapper branch of `_process_model` (response_model.py lines 59-73):
`metadata = getattr(response_model, "__metadata__", [])`; the first metadata
item is used as the field info iff it is a `FieldInfo`, otherwise a default
description is used. -/
def wrapperResult (t : PyTargetType) : Except String AdaptedSchema :=
  let field_info :=
    match t.metadata.head? with
    | some (MetaItem.fieldInfo d) => MetaItem.fieldInfo d
    | _ => defaultFieldInfo
  .ok (.wrapper t field_info)

/-- `ResponseModel._process_model` (response_model.py lines 40-73): return a
pydantic model unchanged, otherwise synthesize the one-field wrapper. The
guard mirrors `original_type`, including the left-to-right evaluation that
keeps `issubclass` away from generic aliases. -/
def process_model (t : PyTargetType) : Except String AdaptedSchema :=
  if t.isGenericAlias then wrapperResult t
  else if t.isType then
    match t.issubclassBaseModel with
    | Option.none => .error "TypeError: issubclass() argument is unsupported"
    | some true => .ok (.original t)
    | some false => wrapperResult t
  else wrapperResult t

/-- The first `FieldInfo` item of a metadata list, regardless of its position
(used to state the spec's reading of the metadata rule, for comparison with
`process_model`). -/
def firstFieldInfo (ms : List MetaItem) : Option MetaItem :=
  ms.find? fun m => match m with | .fieldInfo _ => true | _ => false

/-- A plain-value target type modelling `typing.Annotated` applied to `int`
with a non-`FieldInfo` first metadata item followed by a `FieldInfo`
(`Annotated[int, "units", Field(description="the count")]`): not a
`types.GenericAlias`, not a `type`, metadata in annotation order. -/
def annotatedIntWithLateFieldInfo : PyTargetType :=
  { isGenericAlias := false
    isType := false
    issubclassBaseModel := Option.none
    metadata := [MetaItem.other "units", MetaItem.fieldInfo "the count"] }

/-! ### Prompt (src/modelsmith/prompt.py) -/

/-- `RESPONSE_MODEL_TEXT` of prompt.py (the result of `inspect.cleandoc` on the
triple-quoted literal). -/
def RESPONSE_MODEL_TEXT : String :=
  "Your output MUST be a JSON object that conforms to the JSON Schema below. All\nJSON object property names MUST be enclosed in double quotes.\n\nYou MUST take the types of the OUTPUT SCHEMA into account and adjust your\nprovided text to fit the required types.\n\nHere is the OUTPUT SCHEMA:\n\x7b\x7b response_model_json \x7d\x7d"

/-- `DEFAULT_PROMPT` of prompt.py (the result of `inspect.cleandoc` on the
triple-quoted literal). -/
def DEFAULT_PROMPT : String :=
  "You are an expert at extracting entities from user provided text, data or\ninformation and always maintain as much semantic meaning as possible.\nMake sure to interpret numbers written as text as numbers when required. Make\nsure to identify separate entities.\n\nAnalyze the provided input from the user and generate any entities or objects\nthat match the requested JSON output according to the OUTPUT SCHEMA provided.\n\nYour output MUST be a JSON object that conforms to the JSON Schema below. All\nJSON object property names MUST be enclosed in double quotes.\n\nYou MUST take the types of the OUTPUT SCHEMA into account and adjust your\nprovided text to fit the required types.\n\nHere is the OUTPUT SCHEMA:\n\x7b\x7b response_model_json \x7d\x7d\n\n\x7b% if examples is defined %\x7d\nHere are some examples to show what the desired output is:\n\x7b\x7b examples \x7d\x7d\n\x7b% endif -%\x7d\n\nInput from user:"

/-- The mutable state of a `Prompt` object: the template string `self.prompt`
and the lazily computed cache `self._prompt_variables` (a set of names,
modelled as a list whose order is irrelevant to every use). -/
structure PromptState where
  prompt : String
  promptVariablesCache : Option (List String)
deriving Repr, DecidableEq

/-- `Prompt.__init__`: `self.prompt = prompt or DEFAULT_PROMPT`, cache empty.
Python's `or` takes its right operand for every falsy left operand, so both
`None` and the empty string are replaced by `DEFAULT_PROMPT`. -/
def Prompt.init (prompt : Option String) : PromptState :=
  { prompt := match prompt with
      | some s => if s = "" then DEFAULT_PROMPT else s
      | Option.none => DEFAULT_PROMPT
    promptVariablesCache := Option.none }

/-- The compute-and-cache path of the `prompt_variables` property:
`if not self.prompt: return set()` (without caching), otherwise parse the
template with the external engine `findVars`
(`meta.find_undeclared_variables(self._env.parse(...))`) and store the
result. -/
def computeVars (findVars : String → List String) (p : PromptState) :
    List String × PromptState :=
  if p.prompt = "" then ([], p)
  else
    let vs := findVars p.prompt
    (vs, { p with promptVariablesCache := some vs })

/-- The `prompt_variables` property (prompt.py lines 74-90): return the cache
when it is truthy (present and non-empty — Python's `if self._prompt_variables:`
treats an empty set as false), otherwise compute. -/
def prompt_variables (findVars : String → List String) (p : PromptState) :
    List String × PromptState :=
  match p.promptVariablesCache with
  | some vs => if vs.isEmpty then computeVars findVars p else (vs, p)
  | Option.none => computeVars findVars p

/-- Membership of a key in a kwargs dict (modelled as an association list). -/
def hasKey (kwargs : List (String × String)) (k : String) : Bool :=
  kwargs.any fun kv => kv.1 = k

/-- `kwargs[k]` (first binding; `""` when absent, a case every use guards). -/
def getKey (kwargs : List (String × String)) (k : String) : String :=
  (((kwargs.find? fun kv => kv.1 = k).map Prod.snd)).getD ""

/-- Python dict assignment `kwargs[k] = v`: overwrite in place when the key
exists (insertion order preserved), otherwise append. -/
def setKey (kwargs : List (String × String)) (k v : String) :
    List (String × String) :=
  if hasKey kwargs k then
    kwargs.map fun kv => if kv.1 = k then (k, v) else kv
  else kwargs ++ [(k, v)]

/-- `Prompt._process_kwargs` (prompt.py lines 126-140): when a truthy
`response_model` is among the prompt values, add the key
`response_model_json` bound to `json.dumps(response_model.model_json_schema())`.
The response model is represented here by that dumped schema string
(`Option.none` models an absent or `None` response model). -/
def process_kwargs (prompt_values : List (String × String))
    (response_model_schema : Option String) : List (String × String) :=
  match response_model_schema with
  | some s => setKey prompt_values "response_model_json" s
  | Option.none => prompt_values

/-- `Prompt.render` (prompt.py lines 92-124): process the kwargs; read the
cached variable set; append the standard schema section when a
`response_model_json` value is present but the template does not reference it;
then append the raw user input when present but unreferenced; finally hand the
built text and the kwargs to the external jinja2 engine `jrender`
(`self._env.from_string(...).render(**prompt_kwargs)`).  Returns the rendered
string and the object state after the call (only the cache may have changed;
`self.prompt` is never written). -/
def Prompt.render (findVars : String → List String)
    (jrender : String → List (String × String) → String)
    (p : PromptState) (kwargs : List (String × String))
    (response_model_schema : Option String) : String × PromptState :=
  let prompt_kwargs := process_kwargs kwargs response_model_schema
  let vp := prompt_variables findVars p
  let vars := vp.1
  let p1 := vp.2
  let prompt_to_render := p1.prompt
  let prompt_to_render :=
    if hasKey prompt_kwargs "response_model_json" && !(vars.contains "response_model_json")
    then prompt_to_render ++ "\n" ++ RESPONSE_MODEL_TEXT ++ "\n"
    else prompt_to_render
  let prompt_to_render :=
    if hasKey prompt_kwargs "user_input" && !(vars.contains "user_input")
    then prompt_to_render ++ "\n" ++ getKey prompt_kwargs "user_input" ++ "\n"
    else prompt_to_render
  (jrender prompt_to_render prompt_kwargs, p1)

/-! ### Executable instances of the external collaborators

These definitions are not repository code: they are small, concrete instances
of the external engines (pydantic validation for the synthesized one-field
wrapper schema, jinja2 variable discovery and substitution, a regex engine)
used to exercise the theorems above on concrete inputs. -/

/-- The opening curly brace character. -/
def lbraceC : Char := Char.ofNat 123

/-- The closing curly brace character. -/
def rbraceC : Char := Char.ofNat 125

/-- The double-quote character. -/
def quoteC : Char := Char.ofNat 34

/-- Drop leading JSON whitespace. -/
def skipWs : List Char → List Char
  | [] => []
  | c :: cs =>
    if c = ' ' || c = '\n' || c = '\t' || c = '\r' then skipWs cs else c :: cs

/-- Consume the literal `ls` from the front of `cs`. -/
def expectLit : List Char → List Char → Option (List Char)
  | [], cs => some cs
  | _ :: _, [] => Option.none
  | l :: ls, c :: cs => if c = l then expectLit ls cs else Option.none

/-- Read a decimal digit run (at least one digit when `started` ends true). -/
def parseNatAux : List Char → Nat → Bool → Option (Nat × List Char)
  | [], acc, started => if started then some (acc, []) else Option.none
  | c :: cs, acc, started =>
    if c.isDigit then parseNatAux cs (acc * 10 + (c.toNat - 48)) true
    else if started then some (acc, c :: cs) else Option.none

/-- Read a JSON integer (optional leading minus). -/
def parseJsonInt : List Char → Option (Int × List Char)
  | [] => Option.none
  | c :: cs =>
    if c = '-' then (parseNatAux cs 0 false).map fun p => (-(p.1 : Int), p.2)
    else (parseNatAux (c :: cs) 0 false).map fun p => ((p.1 : Int), p.2)

/-- Parse a JSON document of the exact shape the synthesized wrapper schema for
an integer target accepts: an object with the single property `value` holding
an integer (or `null`, accepted only when `allowNull` is true, modelling a
target type that admits `None`). -/
def parseWrapperJson (allowNull : Bool) (s : String) : Option PyVal :=
  match expectLit [lbraceC] (skipWs s.data) with
  | Option.none => Option.none
  | some cs1 =>
    match expectLit (quoteC :: 'v' :: 'a' :: 'l' :: 'u' :: 'e' :: [quoteC]) (skipWs cs1) with
    | Option.none => Option.none
    | some cs2 =>
      match expectLit [':'] (skipWs cs2) with
      | Option.none => Option.none
      | some cs3 =>
        let body := skipWs cs3
        let valParsed : Option (PyVal × List Char) :=
          match expectLit ['n', 'u', 'l', 'l'] body with
          | some rest => if allowNull then some (PyVal.none, rest) else Option.none
          | Option.none => (parseJsonInt body).map fun p => (PyVal.int p.1, p.2)
        match valParsed with
        | Option.none => Option.none
        | some (v, cs4) =>
          match expectLit [rbraceC] (skipWs cs4) with
          | Option.none => Option.none
          | some cs5 =>
            if (skipWs cs5).isEmpty then some (PyVal.obj [("value", v)])
            else Option.none

/-- `model_validate_json` of the wrapper schema synthesized for target type
`int`: a model of the external validation engine at that schema. -/
def intWrapperValidate (s : String) : Except String PyVal :=
  match parseWrapperJson false s with
  | some v => Except.ok v
  | Option.none =>
    Except.error ("ValidationError for ResponseModel: invalid value in " ++ s)

/-- `model_validate_json` of the wrapper schema synthesized for an optional
integer target type (admits `null`). -/
def optIntWrapperValidate (s : String) : Except String PyVal :=
  match parseWrapperJson true s with
  | some v => Except.ok v
  | Option.none =>
    Except.error ("ValidationError for ResponseModel: invalid optional value in " ++ s)

/-- Characters jinja2 accepts in a variable name (simplified). -/
def isVarNameChar (c : Char) : Bool := c.isAlphanum || c = '_'

/-- Scan a template for double-brace variable references, fuel-bounded (a
model of `meta.find_undeclared_variables(env.parse(...))` for plain variable
interpolations). -/
def scanJinjaVars (kont : Nat) (cs : List Char) : List String :=
  match kont, cs with
  | 0, _ => []
  | _ + 1, [] => []
  | fuel + 1, c :: cs =>
    if c = lbraceC then
      match cs with
      | c2 :: cs2 =>
        if c2 = lbraceC then
          let afterWs := skipWs cs2
          let nameChars := afterWs.takeWhile isVarNameChar
          let rest1 := skipWs (afterWs.drop nameChars.length)
          match rest1 with
          | d1 :: d2 :: rest2 =>
            if d1 = rbraceC && d2 = rbraceC && !nameChars.isEmpty then
              String.mk nameChars :: scanJinjaVars fuel rest2
            else scanJinjaVars fuel (c2 :: cs2)
          | _ => scanJinjaVars fuel (c2 :: cs2)
        else scanJinjaVars fuel (c2 :: cs2)
      | [] => []
    else scanJinjaVars fuel cs

/-- Variable discovery of the external template engine (a model of jinja2's
`meta.find_undeclared_variables`; duplicates are irrelevant, only membership
is ever consulted). -/
def jinjaFindVariables (s : String) : List String :=
  scanJinjaVars (s.data.length + 1) s.data

/-- Fuel-bounded substitution of double-brace variable references from a
kwargs dict (a model of jinja2 rendering for plain variable interpolation). -/
def substJinja (kwargs : List (String × String)) (kont : Nat) (cs : List Char) :
    List Char :=
  match kont, cs with
  | 0, cs => cs
  | _ + 1, [] => []
  | fuel + 1, c :: cs =>
    if c = lbraceC then
      match cs with
      | c2 :: cs2 =>
        if c2 = lbraceC then
          let afterWs := skipWs cs2
          let nameChars := afterWs.takeWhile isVarNameChar
          let rest1 := skipWs (afterWs.drop nameChars.length)
          match rest1 with
          | d1 :: d2 :: rest2 =>
            if d1 = rbraceC && d2 = rbraceC && !nameChars.isEmpty then
              (getKey kwargs (String.mk nameChars)).data ++ substJinja kwargs fuel rest2
            else c :: substJinja kwargs fuel (c2 :: cs2)
          | _ => c :: substJinja kwargs fuel (c2 :: cs2)
        else c :: substJinja kwargs fuel (c2 :: cs2)
      | [] => [c]
    else c :: substJinja kwargs fuel cs

/-- Rendering by the external template engine (a model of jinja2's
`from_string(...).render(**kwargs)` for plain variable interpolation). -/
def jinjaRenderModel (template : String) (kwargs : List (String × String)) :
    String :=
  String.mk (substJinja kwargs (template.data.length + 1) template.data)

/-- A collaborator client whose `send` always raises a transport-level
exception (for example a connection reset inside the provider SDK). -/
def sendTransportFail : Nat → String → Except Exc String :=
  fun _ _ => Except.error (Exc.transport "connection reset by peer")

/-- A collaborator client whose `send` always succeeds with a response
containing no JSON-like content. -/
def sendPlainText : Nat → String → Except Exc String :=
  fun _ _ => Except.ok "I could not produce any JSON for that."

/-- A `_process_response` stand-in that always raises `PatternNotFound`
(what `_process_response` does on a response with no pattern match). -/
def procPatternNotFound : String → Except Exc PyVal :=
  fun _ => Except.error (Exc.patternNotFound "No JSON output found.")

/-! ### Helper lemmas -/

/-- `PyVal.none` is the only value Python's `is None` test accepts. -/
@[simp] theorem PyVal.isNone_none : PyVal.none.isNone = true := rfl

/-- A prefix of candidates that all fail validation contributes exactly its
errors, in order, and leaves the final model to the remaining candidates. -/
theorem validationLoop_append (validate : String → Except String PyVal)
    (origType : ResponseModelType) (errOf : String → String) :
    ∀ (pre l : List String), (∀ c ∈ pre, validate c = Except.error (errOf c)) →
      validationLoop validate origType (pre ++ l)
        = (pre.map errOf ++ (validationLoop validate origType l).1,
           (validationLoop validate origType l).2) := by
  intro pre
  induction pre with
  | nil => intro l _; simp
  | cons c cs ih =>
    intro l h
    have hc := h c (by simp)
    have hrest := ih l fun x hx => h x (by simp [hx])
    simp [validationLoop, hc, hrest]

/-- A prefix of candidates that all fail validation does not change the model
the loop produces. -/
theorem validationLoop_snd_append (validate : String → Except String PyVal)
    (origType : ResponseModelType) :
    ∀ (pre l : List String), (∀ c ∈ pre, ∃ e, validate c = Except.error e) →
      (validationLoop validate origType (pre ++ l)).2
        = (validationLoop validate origType l).2 := by
  intro pre
  induction pre with
  | nil => intro l _; simp
  | cons c cs ih =>
    intro l h
    obtain ⟨e, he⟩ := h c (by simp)
    have hrest := ih l fun x hx => h x (by simp [hx])
    simp [validationLoop, he, hrest]

/-- When every attempt fails (send succeeds, processing raises), the retry
loop consumes all its fuel, ends without an outcome, and performs one send per
attempt. -/
theorem attemptLoop_persistent_fail (send : Nat → String → Except Exc String)
    (proc : String → Except Exc PyVal)
    (hsend : ∀ k p, ∃ t, send k p = Except.ok t)
    (hproc : ∀ t, ∃ e, proc t = Except.error e) :
    ∀ fuel k prompt, 1 ≤ fuel →
      (attemptLoop send proc fuel k prompt).outcome = Option.none ∧
      (attemptLoop send proc fuel k prompt).sends = fuel := by
  intro fuel
  induction fuel with
  | zero => intro k prompt h; exact absurd h (by omega)
  | succ n ih =>
    intro k prompt _
    obtain ⟨t, ht⟩ := hsend k prompt
    obtain ⟨e, he⟩ := hproc t
    by_cases hn : n = 0
    · subst hn
      rcases e with msg | errs | msg | fp <;> simp [attemptLoop, ht, he]
    · have h1 : 1 ≤ n := by omega
      rcases e with msg | errs | msg | fp <;>
        simp [attemptLoop, ht, he, hn, (ih (k + 1) _ h1).1, (ih (k + 1) _ h1).2]

/-- When every `send` raises, the loop retries with the prompt unchanged,
performs one send per attempt, and ends without an outcome. -/
theorem attemptLoop_send_error (send : Nat → String → Except Exc String)
    (proc : String → Except Exc PyVal)
    (hsend : ∀ k p, ∃ e, send k p = Except.error e) :
    ∀ fuel k prompt, 1 ≤ fuel →
      attemptLoop send proc fuel k prompt = ⟨Option.none, fuel, prompt⟩ := by
  intro fuel
  induction fuel with
  | zero => intro k prompt h; exact absurd h (by omega)
  | succ n ih =>
    intro k prompt _
    obtain ⟨e, he⟩ := hsend k prompt
    by_cases hn : n = 0
    · subst hn
      simp [attemptLoop, he]
    · have h1 : 1 ≤ n := by omega
      simp [attemptLoop, he, hn, ih (k + 1) prompt h1]

/-- `generate` only ever produces a value, `None`, or `ModelNotDerivedError`:
no `PatternNotFound`, `CombinedException` or transport-level exception is ever
its result. -/
theorem generate_never_leaks (send : Nat → String → Except Exc String)
    (proc : String → Except Exc PyVal) (N : Nat) (rof : Bool) (prompt0 : String) :
    ∀ msg errs tmsg,
      (generate send proc N rof prompt0).result
          ≠ Except.error (Exc.patternNotFound msg)
      ∧ (generate send proc N rof prompt0).result
          ≠ Except.error (Exc.combined errs)
      ∧ (generate send proc N rof prompt0).result
          ≠ Except.error (Exc.transport tmsg) := by
  intro msg errs tmsg
  unfold generate
  rcases houtcome : (attemptLoop send proc N 1 prompt0).outcome with _ | m
  · cases rof <;> simp [houtcome]
  · simp [houtcome]

/-! ### Claims about `_process_response` -/

/-- C4: validation tries the candidates strictly in the order produced by the
extractor and uses the first candidate that validates, ignoring all subsequent
candidates (`rest` is arbitrary and absent from the produced model); in
particular, validating the candidates "curly-brace bad json curly-brace" and
"curly-brace value: 5 curly-brace" against the wrapper schema for `int`
yields `5`. -/
theorem c4_first_validating_candidate_wins
    (validate : String → Except String PyVal) (origType : ResponseModelType)
    (pre : List String) (s : String) (rest : List String) (inst : PyVal)
    (hpre : ∀ c ∈ pre, ∃ e, validate c = Except.error e)
    (hs : validate s = Except.ok inst) :
    (validationLoop validate origType (pre ++ s :: rest)).2
        = unwrapModel origType inst
    ∧ processCandidates intWrapperValidate ResponseModelType.PYTHON
        ["\x7bbad json\x7d", "\x7b\"value\": 5\x7d"] = Except.ok (PyVal.int 5) := by
  constructor
  · rw [validationLoop_snd_append validate origType pre (s :: rest) hpre]
    simp [validationLoop, hs]
  · rfl

/-- Witness for C4 at the concrete candidate list of the claim. -/
theorem c4_first_validating_candidate_wins_witness :
    intWrapperValidate "\x7b\"value\": 5\x7d"
        = Except.ok (PyVal.obj [("value", PyVal.int 5)])
    ∧ ((validationLoop intWrapperValidate ResponseModelType.PYTHON
          (["\x7bbad json\x7d"] ++ "\x7b\"value\": 5\x7d" :: [])).2
        = unwrapModel ResponseModelType.PYTHON (PyVal.obj [("value", PyVal.int 5)])
      ∧ processCandidates intWrapperValidate ResponseModelType.PYTHON
          ["\x7bbad json\x7d", "\x7b\"value\": 5\x7d"] = Except.ok (PyVal.int 5)) :=
  ⟨rfl,
    c4_first_validating_candidate_wins intWrapperValidate ResponseModelType.PYTHON
      ["\x7bbad json\x7d"] "\x7b\"value\": 5\x7d" []
      (PyVal.obj [("value", PyVal.int 5)])
      (fun c hc => by
        rw [List.mem_singleton] at hc
        subst hc
        exact ⟨_, rfl⟩)
      rfl⟩

/-- C5: when at least one candidate is supplied and none validates, the
attempt fails with one aggregate failure carrying every individual validation
error in candidate order; when the extractor produced zero candidates, the
distinct `PatternNotFound` failure is reported, before (and independently of)
any validation: the validation function is universally quantified in the
second conjunct. -/
theorem c5_aggregate_failures_and_pattern_not_found
    (validate : String → Except String PyVal) (origType : ResponseModelType)
    (errOf : String → String) (candidates : List String)
    (hne : candidates ≠ [])
    (hfail : ∀ c ∈ candidates, validate c = Except.error (errOf c)) :
    processCandidates validate origType candidates
        = Except.error (Exc.combined (candidates.map errOf))
    ∧ ∀ (findall : String → String → List String) (patterns : PatternsArg)
        (validate2 : String → Except String PyVal)
        (origType2 : ResponseModelType) (text : String),
        find_patterns findall text patterns = [] →
        process_response findall patterns validate2 origType2 text
          = Except.error (Exc.patternNotFound "No JSON output found.") := by
  constructor
  · have h := validationLoop_append validate origType errOf candidates [] hfail
    simp only [List.append_nil] at h
    simp [processCandidates, h, validationLoop, hne]
  · intro findall patterns validate2 origType2 text hfp
    unfold process_response
    rw [hfp]
    rfl

/-- Witness for C5: two failing candidates produce the aggregate failure with
both errors; an extraction that finds nothing produces `PatternNotFound`. -/
theorem c5_aggregate_failures_and_pattern_not_found_witness :
    (["a", "b"] ≠ ([] : List String))
    ∧ processCandidates (fun c => Except.error ("bad " ++ c))
        ResponseModelType.PYTHON ["a", "b"]
        = Except.error (Exc.combined ["bad a", "bad b"])
    ∧ process_response (fun _ _ => []) (PatternsArg.list ["p"])
        (fun c => Except.error ("bad " ++ c)) ResponseModelType.PYTHON "t"
        = Except.error (Exc.patternNotFound "No JSON output found.") := by
  have h := c5_aggregate_failures_and_pattern_not_found
      (fun c => Except.error ("bad " ++ c)) ResponseModelType.PYTHON
      (fun c => "bad " ++ c) ["a", "b"] (by simp) (fun c _ => rfl)
  exact ⟨by simp, by simpa using h.1, h.2 (fun _ _ => []) (PatternsArg.list ["p"])
    (fun c => Except.error ("bad " ++ c)) ResponseModelType.PYTHON "t" rfl⟩

/-- C10: for a PLAIN-VALUE (PYTHON) response model admitting null, when every
candidate before the first successfully validating one fails and that
candidate's validated `value` field is null, `_process_response` raises the
aggregate validation failure (carrying the earlier errors) instead of
returning the validated null. -/
theorem c10_validated_null_after_failures_raises
    (validate : String → Except String PyVal) (errOf : String → String)
    (pre : List String) (s : String) (rest : List String) (inst : PyVal)
    (hne : pre ≠ [])
    (hpre : ∀ c ∈ pre, validate c = Except.error (errOf c))
    (hs : validate s = Except.ok inst)
    (hnull : inst.getValue = PyVal.none) :
    processCandidates validate ResponseModelType.PYTHON (pre ++ s :: rest)
      = Except.error (Exc.combined (pre.map errOf)) := by
  have h2 : validationLoop validate ResponseModelType.PYTHON (s :: rest)
      = ([], PyVal.none) := by
    simp [validationLoop, hs, unwrapModel, hnull]
  have h := validationLoop_append validate ResponseModelType.PYTHON errOf pre
      (s :: rest) hpre
  rw [h2] at h
  simp only [List.append_nil] at h
  simp [processCandidates, h, hne]

/-- Witness for C10: against the optional-int wrapper schema, a bad candidate
followed by a candidate validating to null raises the aggregate failure. -/
theorem c10_validated_null_after_failures_raises_witness :
    optIntWrapperValidate "\x7b\"value\": null\x7d"
        = Except.ok (PyVal.obj [("value", PyVal.none)])
    ∧ (PyVal.obj [("value", PyVal.none)]).getValue = PyVal.none
    ∧ processCandidates optIntWrapperValidate ResponseModelType.PYTHON
        (["\x7bbad json\x7d"] ++ "\x7b\"value\": null\x7d" :: [])
        = Except.error (Exc.combined
            ["ValidationError for ResponseModel: invalid optional value in \x7bbad json\x7d"]) := by
  have h := c10_validated_null_after_failures_raises optIntWrapperValidate
      (fun c => "ValidationError for ResponseModel: invalid optional value in " ++ c)
      ["\x7bbad json\x7d"] "\x7b\"value\": null\x7d" []
      (PyVal.obj [("value", PyVal.none)])
      (by simp)
      (fun c hc => by
        rw [List.mem_singleton] at hc
        subst hc
        rfl)
      rfl rfl
  exact ⟨rfl, rfl, by simpa using h⟩

/-- C7: for every text and ordered list of patterns, the extractor returns the
per-pattern match lists (each match trimmed, in the order the engine returns
them for that pattern) concatenated pattern-by-pattern — all matches of an
earlier pattern before any match of a later one, never interleaved; a single
string pattern behaves as the one-element list. -/
theorem c7_pattern_by_pattern_concatenation
    (findall : String → String → List String) (text : String) :
    (∀ ps : List String,
        find_patterns findall text (PatternsArg.list ps)
          = (ps.map fun p => (findall p text).map String.trim).flatten)
    ∧ ∀ p : String,
        find_patterns findall text (PatternsArg.str p)
          = (findall p text).map String.trim := by
  have key : ∀ (ps : List String) (acc : List String),
      ps.foldl (fun r p => r ++ ((findall p text).map String.trim)) acc
        = acc ++ (ps.map fun p => (findall p text).map String.trim).flatten := by
    intro ps
    induction ps with
    | nil => intro acc; simp
    | cons p ps ih => intro acc; simp [List.foldl, ih]
  constructor
  · intro ps
    simp only [find_patterns]
    simpa using key ps []
  · intro p
    have h := key [p] []
    simp only [List.map_cons, List.map_nil, List.flatten_cons, List.flatten_nil,
      List.append_nil, List.nil_append, List.foldl_cons, List.foldl_nil] at h
    simp [find_patterns, h]

/-! ### Claims about `Forge.generate` -/

/-- C1: with `max_retries = N ≥ 1` and a collaborator client whose responses
persistently fail extraction or validation, one `Forge.generate` call invokes
the client's `send` exactly `N` times, and then resolves by the terminal
failure or the null result. -/
theorem c1_generate_sends_exactly_max_retries
    (send : Nat → String → Except Exc String) (proc : String → Except Exc PyVal)
    (N : Nat) (hN : 1 ≤ N) (raise_on_failure : Bool) (prompt0 : String)
    (hsend : ∀ k p, ∃ t, send k p = Except.ok t)
    (hproc : ∀ t, ∃ e, proc t = Except.error e) :
    (generate send proc N raise_on_failure prompt0).sends = N
    ∧ ((generate send proc N raise_on_failure prompt0).result
          = Except.error
              (Exc.modelNotDerived (attemptLoop send proc N 1 prompt0).finalPrompt)
        ∨ (generate send proc N raise_on_failure prompt0).result
          = Except.ok PyVal.none) := by
  have h := attemptLoop_persistent_fail send proc hsend hproc N 1 prompt0 hN
  constructor
  · cases raise_on_failure <;> simp [generate, h.1, h.2]
  · cases raise_on_failure
    · exact Or.inr (by simp [generate, h.1])
    · exact Or.inl (by simp [generate, h.1])

/-- Witness for C1: a client answering plain text and a processing step that
always raises `PatternNotFound`, with `max_retries = 3`, yield exactly 3
sends. -/
theorem c1_generate_sends_exactly_max_retries_witness :
    1 ≤ 3
    ∧ (generate sendPlainText procPatternNotFound 3 true "PROMPT").sends = 3 :=
  ⟨by omega,
    (c1_generate_sends_exactly_max_retries sendPlainText procPatternNotFound 3
      (by omega) true "PROMPT"
      (fun _ _ => ⟨"I could not produce any JSON for that.", rfl⟩)
      (fun _ => ⟨Exc.patternNotFound "No JSON output found.", rfl⟩)).1⟩

/-- C2 counterexample: a client whose `send` always raises a transport-level
exception, with `max_retries = 2` and `raise_on_failure = True`.  Contrary to
the claim, the exception does not propagate to the caller unchanged: the call
consumes both attempts (two sends, not one) and resolves with
`ModelNotDerivedError`, because the tenacity retry context swallows and
retries every exception, not only `PatternNotFound`/`CombinedException`. -/
theorem c2_transport_error_is_retried_counterexample :
    generate sendTransportFail procPatternNotFound 2 true "PROMPT"
        = ⟨Except.error (Exc.modelNotDerived "PROMPT"), 2⟩
    ∧ (generate sendTransportFail procPatternNotFound 2 true "PROMPT").result
        ≠ Except.error (Exc.transport "connection reset by peer")
    ∧ (generate sendTransportFail procPatternNotFound 2 true "PROMPT").sends ≠ 1 := by
  refine ⟨rfl, ?_, by decide⟩
  have h : (generate sendTransportFail procPatternNotFound 2 true "PROMPT").result
      = Except.error (Exc.modelNotDerived "PROMPT") := rfl
  rw [h]
  simp

/-- C2 amended: a transport/provider-level failure raised by the client's
`send` (any exception other than `PatternNotFound` and `CombinedException`)
does not propagate to the caller: the retry loop swallows it like an
extraction/validation failure — though without appending feedback, so the
prompt is left unchanged — it consumes attempts, and after `max_retries`
failing attempts the call resolves per `raise_on_failure` as
`ModelNotDerivedError` (carrying the unchanged prompt) or the null result,
after exactly `max_retries` sends. -/
theorem c2_amended_transport_failures_are_retried
    (proc : String → Except Exc PyVal) (N : Nat) (hN : 1 ≤ N)
    (msg prompt0 : String) (raise_on_failure : Bool) :
    generate (fun _ _ => Except.error (Exc.transport msg)) proc N
        raise_on_failure prompt0
      = ⟨if raise_on_failure then Except.error (Exc.modelNotDerived prompt0)
         else Except.ok PyVal.none, N⟩ := by
  have h := attemptLoop_send_error (fun _ _ => Except.error (Exc.transport msg))
      proc (fun _ _ => ⟨Exc.transport msg, rfl⟩) N 1 prompt0 hN
  unfold generate
  rw [h]
  cases raise_on_failure <;> simp

/-- Witness for C2's amended claim at `max_retries = 1`. -/
theorem c2_amended_transport_failures_are_retried_witness :
    1 ≤ 1
    ∧ generate (fun _ _ => Except.error (Exc.transport "boom"))
        procPatternNotFound 1 true "P"
      = ⟨if true then Except.error (Exc.modelNotDerived "P")
         else Except.ok PyVal.none, 1⟩ :=
  ⟨by omega,
    c2_amended_transport_failures_are_retried procPatternNotFound 1 (by omega)
      "boom" "P" true⟩

/-- C3: when all `max_retries` attempts fail by extraction/validation, the
outcome is decided by `raise_on_failure`: true raises `ModelNotDerivedError`
carrying the final prompt text (the prompt with all appended feedback, i.e.
the loop's final prompt), false returns the null result; and no extraction or
validation failure is ever the result of a `generate` call, whatever the
client, the flag or the processing do. -/
theorem c3_exhausted_outcome_decided_by_raise_on_failure
    (send : Nat → String → Except Exc String) (proc : String → Except Exc PyVal)
    (N : Nat) (hN : 1 ≤ N) (prompt0 : String)
    (hsend : ∀ k p, ∃ t, send k p = Except.ok t)
    (hproc : ∀ t, ∃ e, proc t = Except.error e) :
    (generate send proc N true prompt0).result
        = Except.error
            (Exc.modelNotDerived (attemptLoop send proc N 1 prompt0).finalPrompt)
    ∧ (generate send proc N false prompt0).result = Except.ok PyVal.none
    ∧ ∀ (send2 : Nat → String → Except Exc String)
        (proc2 : String → Except Exc PyVal) (N2 : Nat) (rof : Bool)
        (p2 msg : String) (errs : List String),
        (generate send2 proc2 N2 rof p2).result
            ≠ Except.error (Exc.patternNotFound msg)
        ∧ (generate send2 proc2 N2 rof p2).result
            ≠ Except.error (Exc.combined errs) := by
  have h := attemptLoop_persistent_fail send proc hsend hproc N 1 prompt0 hN
  refine ⟨?_, ?_, ?_⟩
  · simp [generate, h.1]
  · simp [generate, h.1]
  · intro send2 proc2 N2 rof p2 msg errs
    have hnl := generate_never_leaks send2 proc2 N2 rof p2 msg errs ""
    exact ⟨hnl.1, hnl.2.1⟩

/-- Witness for C3 with a persistently pattern-less client at
`max_retries = 2`: the raised terminal error carries the prompt with both
rounds of appended feedback, and suppression returns the null result. -/
theorem c3_exhausted_outcome_decided_by_raise_on_failure_witness :
    1 ≤ 2
    ∧ (generate sendPlainText procPatternNotFound 2 true "P").result
        = Except.error (Exc.modelNotDerived
            (attemptLoop sendPlainText procPatternNotFound 2 1 "P").finalPrompt)
    ∧ (generate sendPlainText procPatternNotFound 2 false "P").result
        = Except.ok PyVal.none
    ∧ (attemptLoop sendPlainText procPatternNotFound 2 1 "P").finalPrompt
        = "P"
          ++ ("\nTry again and fix the errors that occurred: "
              ++ excArgs (Exc.patternNotFound "No JSON output found."))
          ++ ("\nTry again and fix the errors that occurred: "
              ++ excArgs (Exc.patternNotFound "No JSON output found.")) := by
  have h := c3_exhausted_outcome_decided_by_raise_on_failure sendPlainText
      procPatternNotFound 2 (by omega) "P"
      (fun _ _ => ⟨"I could not produce any JSON for that.", rfl⟩)
      (fun _ => ⟨Exc.patternNotFound "No JSON output found.", rfl⟩)
  exact ⟨by omega, h.1, h.2.1, rfl⟩

/-! ### Claims about `ResponseModel` -/

/-- C8: every parameterized generic alias is classified PLAIN-VALUE (PYTHON)
without the subclass check being applied — `t.issubclassBaseModel` is left
arbitrary, including the `Option.none` that models the `TypeError` raised by
`issubclass` on generic aliases, and classification still succeeds; every type
satisfying the structural-validation model contract is classified STRUCTURED
(PYDANTIC) and passed through unchanged; unwrapping returns the instance
itself for STRUCTURED and the instance's `value` field for PLAIN-VALUE. -/
theorem c8_classification_passthrough_and_unwrap
    (t u : PyTargetType) (inst v : PyVal) (fields : List (String × PyVal))
    (hGen : t.isGenericAlias = true)
    (huGen : u.isGenericAlias = false) (huType : u.isType = true)
    (huSub : u.issubclassBaseModel = some true) :
    original_type t = Except.ok ResponseModelType.PYTHON
    ∧ original_type u = Except.ok ResponseModelType.PYDANTIC
    ∧ process_model u = Except.ok (AdaptedSchema.original u)
    ∧ unwrapModel ResponseModelType.PYDANTIC inst = inst
    ∧ unwrapModel ResponseModelType.PYTHON (PyVal.obj (("value", v) :: fields)) = v := by
  refine ⟨?_, ?_, ?_, ?_, ?_⟩
  · simp [original_type, hGen]
  · simp [original_type, huGen, huType, huSub]
  · simp [process_model, huGen, huType, huSub]
  · simp [unwrapModel]
  · simp [unwrapModel, PyVal.getValue, List.lookup]

/-- Witness for C8: `list[str]` (a generic alias, on which `issubclass` would
raise — modelled by `Option.none`) is PLAIN-VALUE; a pydantic model class is
STRUCTURED and kept as-is; unwrap of a wrapper instance holding
`["a", "b"]` yields `["a", "b"]`, unwrap of a structured instance is the
identity. -/
theorem c8_classification_passthrough_and_unwrap_witness :
    (PyTargetType.mk true false Option.none []).isGenericAlias = true
    ∧ (original_type (PyTargetType.mk true false Option.none [])
        = Except.ok ResponseModelType.PYTHON
      ∧ original_type (PyTargetType.mk false true (some true) [])
        = Except.ok ResponseModelType.PYDANTIC
      ∧ process_model (PyTargetType.mk false true (some true) [])
        = Except.ok (AdaptedSchema.original (PyTargetType.mk false true (some true) []))
      ∧ unwrapModel ResponseModelType.PYDANTIC (PyVal.str "a structured instance")
        = PyVal.str "a structured instance"
      ∧ unwrapModel ResponseModelType.PYTHON
          (PyVal.obj [("value", PyVal.list [PyVal.str "a", PyVal.str "b"])])
        = PyVal.list [PyVal.str "a", PyVal.str "b"]) :=
  ⟨rfl,
    c8_classification_passthrough_and_unwrap
      (PyTargetType.mk true false Option.none [])
      (PyTargetType.mk false true (some true) [])
      (PyVal.str "a structured instance")
      (PyVal.list [PyVal.str "a", PyVal.str "b"]) []
      rfl rfl rfl rfl⟩

/-- C9 counterexample: `Annotated[int, "units", Field(description="the
count")]` carries attached field metadata (a `FieldInfo`, the second metadata
item), yet `_process_model` does not reuse the first such item: it only
inspects the head of the metadata tuple, finds a non-`FieldInfo` there, and
falls back to the default description. -/
theorem c9_first_field_metadata_counterexample :
    firstFieldInfo annotatedIntWithLateFieldInfo.metadata
        = some (MetaItem.fieldInfo "the count")
    ∧ process_model annotatedIntWithLateFieldInfo
        = Except.ok (AdaptedSchema.wrapper annotatedIntWithLateFieldInfo defaultFieldInfo)
    ∧ defaultFieldInfo ≠ MetaItem.fieldInfo "the count" :=
  ⟨rfl, rfl, by decide⟩

/-- C9 amended: when synthesizing the one-field wrapper schema for a
plain-value target type, the first item of the attached metadata is reused as
the value field's validation metadata only when that first item is itself
field metadata (a `FieldInfo`); in every other case — no metadata, or a
non-`FieldInfo` first item even when field metadata occurs later — the field
gets the default description "JSON schema the response should adhere to.". -/
theorem c9_amended_wrapper_field_info
    (t : PyTargetType)
    (hplain : t.isGenericAlias = true ∨ t.isType = false
      ∨ t.issubclassBaseModel = some false) :
    process_model t
      = Except.ok (AdaptedSchema.wrapper t
          (match t.metadata.head? with
           | some (MetaItem.fieldInfo d) => MetaItem.fieldInfo d
           | _ => defaultFieldInfo)) := by
  by_cases hg : t.isGenericAlias
  · simp [process_model, wrapperResult, hg]
  · rcases hplain with h | h | h
    · exact absurd h (by simpa using hg)
    · simp [process_model, wrapperResult, hg, h]
    · by_cases ht : t.isType
      · simp [process_model, wrapperResult, hg, ht, h]
      · simp [process_model, wrapperResult, hg, ht]

/-- Witness for C9's amended claim: `Annotated[int, Field(description="age of
the person")]` has a `FieldInfo` first metadata item, which is reused. -/
theorem c9_amended_wrapper_field_info_witness :
    ((PyTargetType.mk false false Option.none
        [MetaItem.fieldInfo "age of the person"]).isType = false)
    ∧ process_model (PyTargetType.mk false false Option.none
        [MetaItem.fieldInfo "age of the person"])
      = Except.ok (AdaptedSchema.wrapper
          (PyTargetType.mk false false Option.none
            [MetaItem.fieldInfo "age of the person"])
          (MetaItem.fieldInfo "age of the person")) :=
  ⟨rfl,
    by
      have h := c9_amended_wrapper_field_info
        (PyTargetType.mk false false Option.none
          [MetaItem.fieldInfo "age of the person"])
        (Or.inr (Or.inl rfl))
      simpa using h⟩

/-! ### Claims about `Prompt.render` -/

/-- `_process_kwargs` adds the `response_model_json` binding at the end when
the prompt values do not already contain that key. -/
theorem process_kwargs_append (ui rm : String) (rest : List (String × String))
    (hrest : hasKey rest "response_model_json" = false) :
    process_kwargs (("user_input", ui) :: rest) (some rm)
      = ("user_input", ui) :: (rest ++ [("response_model_json", rm)]) := by
  have h : hasKey (("user_input", ui) :: rest) "response_model_json" = false := by
    simp only [hasKey, List.any_cons] at hrest ⊢
    simp [hrest]
  simp [process_kwargs, setKey, h]

/-- The `prompt_variables` property, read on a state whose cache is either
unset or holds exactly the parse of the stored template: the returned set is
empty or that parse, and the template is never mutated — only the cache can
change, and only to the parse of the template. -/
theorem prompt_variables_spec (findVars : String → List String) (t : String)
    (cache : Option (List String))
    (hcache : cache = Option.none ∨ cache = some (findVars t)) :
    ((prompt_variables findVars ⟨t, cache⟩).1 = []
      ∨ (prompt_variables findVars ⟨t, cache⟩).1 = findVars t)
    ∧ (prompt_variables findVars ⟨t, cache⟩).2
        = ⟨t, if t = "" then cache else some (findVars t)⟩ := by
  rcases hcache with h | h <;> subst h
  · unfold prompt_variables computeVars
    by_cases ht : t = "" <;> simp [ht]
  · unfold prompt_variables computeVars
    by_cases ht : t = ""
    · subst ht
      by_cases hv : findVars "" = [] <;> simp [hv, List.isEmpty_iff]
    · by_cases hv : findVars t = [] <;> simp [ht, hv, List.isEmpty_iff]

/-- `Prompt.render` on a template that references neither
`response_model_json` nor `user_input`, with a `user_input` value and a
response model supplied: both standard sections are appended in fixed order
(schema block first, then the raw user input as a trailing line), the stored
template is unchanged, and the state change is confined to the variable
cache. -/
theorem render_unreferenced (findVars : String → List String)
    (jrender : String → List (String × String) → String)
    (t ui rm : String) (rest : List (String × String))
    (cache : Option (List String))
    (hcache : cache = Option.none ∨ cache = some (findVars t))
    (h1 : (findVars t).contains "response_model_json" = false)
    (h2 : (findVars t).contains "user_input" = false)
    (hrest : hasKey rest "response_model_json" = false) :
    Prompt.render findVars jrender ⟨t, cache⟩ (("user_input", ui) :: rest) (some rm)
      = (jrender (t ++ "\n" ++ RESPONSE_MODEL_TEXT ++ "\n" ++ "\n" ++ ui ++ "\n")
           (("user_input", ui) :: (rest ++ [("response_model_json", rm)])),
         ⟨t, if t = "" then cache else some (findVars t)⟩) := by
  obtain ⟨hvars, hstate⟩ := prompt_variables_spec findVars t cache hcache
  have hc1 : ((prompt_variables findVars ⟨t, cache⟩).1).contains
      "response_model_json" = false := by
    rcases hvars with h | h
    · rw [h]; rfl
    · rw [h]; exact h1
  have hc2 : ((prompt_variables findVars ⟨t, cache⟩).1).contains
      "user_input" = false := by
    rcases hvars with h | h
    · rw [h]; rfl
    · rw [h]; exact h2
  have hpk := process_kwargs_append ui rm rest hrest
  have hhk1 : hasKey (("user_input", ui) :: (rest ++ [("response_model_json", rm)]))
      "response_model_json" = true := by
    simp [hasKey]
  have hhk2 : hasKey (("user_input", ui) :: (rest ++ [("response_model_json", rm)]))
      "user_input" = true := by
    simp [hasKey]
  have hgk : getKey (("user_input", ui) :: (rest ++ [("response_model_json", rm)]))
      "user_input" = ui := by
    simp [getKey]
  unfold Prompt.render
  simp only [hpk, hhk1, hhk2, hgk, hc1, hc2, hstate, Bool.not_false, Bool.and_self,
    if_true, Bool.true_and, Bool.and_true]

/-- C6: rendering a prompt whose stored template (the supplied template, or
`DEFAULT_PROMPT` when the supplied one is absent or empty, per `prompt or
DEFAULT_PROMPT`) references neither the schema-description variable
(`response_model_json`) nor the user-input variable (`user_input`) appends
both standard sections in fixed order — the schema instructional block first,
then the raw user-input text as a trailing line — and rendering the same
template with the same variables twice yields the identical string while
leaving the stored template unchanged; a non-empty supplied template is
stored as-is. -/
theorem c6_render_appends_both_sections_and_is_stable
    (findVars : String → List String)
    (jrender : String → List (String × String) → String)
    (t ui rm : String) (rest : List (String × String))
    (h1 : (findVars (Prompt.init (some t)).prompt).contains
        "response_model_json" = false)
    (h2 : (findVars (Prompt.init (some t)).prompt).contains
        "user_input" = false)
    (hrest : hasKey rest "response_model_json" = false) :
    (Prompt.render findVars jrender (Prompt.init (some t))
        (("user_input", ui) :: rest) (some rm)).1
      = jrender ((Prompt.init (some t)).prompt ++ "\n" ++ RESPONSE_MODEL_TEXT
            ++ "\n" ++ "\n" ++ ui ++ "\n")
          (("user_input", ui) :: (rest ++ [("response_model_json", rm)]))
    ∧ (Prompt.render findVars jrender (Prompt.init (some t))
        (("user_input", ui) :: rest) (some rm)).2.prompt
      = (Prompt.init (some t)).prompt
    ∧ (Prompt.render findVars jrender
        (Prompt.render findVars jrender (Prompt.init (some t))
          (("user_input", ui) :: rest) (some rm)).2
        (("user_input", ui) :: rest) (some rm)).1
      = (Prompt.render findVars jrender (Prompt.init (some t))
          (("user_input", ui) :: rest) (some rm)).1
    ∧ (t ≠ "" → (Prompt.init (some t)).prompt = t) := by
  obtain ⟨s, hstored, hinit⟩ :
      ∃ s, (Prompt.init (some t)).prompt = s
        ∧ Prompt.init (some t) = (⟨s, Option.none⟩ : PromptState) :=
    ⟨(Prompt.init (some t)).prompt, rfl, rfl⟩
  rw [hstored] at h1 h2
  rw [hstored, hinit]
  have hm1 := render_unreferenced findVars jrender s ui rm rest Option.none
    (Or.inl rfl) h1 h2 hrest
  refine ⟨?_, ?_, ?_, ?_⟩
  · rw [hm1]
  · rw [hm1]
  · rw [hm1]
    by_cases hs : s = ""
    · rw [if_pos hs,
        render_unreferenced findVars jrender s ui rm rest Option.none
          (Or.inl rfl) h1 h2 hrest]
    · rw [if_neg hs,
        render_unreferenced findVars jrender s ui rm rest (some (findVars s))
          (Or.inr rfl) h1 h2 hrest]
  · intro ht
    rw [← hstored]
    simp [Prompt.init, ht]

/-- Witness for C6 with the concrete jinja2 model on a non-empty template
mentioning neither variable (hence stored as-is). -/
theorem c6_render_appends_both_sections_and_is_stable_witness :
    (jinjaFindVariables
        (Prompt.init (some "Extract the entities.")).prompt).contains
      "response_model_json" = false
    ∧ (jinjaFindVariables
        (Prompt.init (some "Extract the entities.")).prompt).contains
      "user_input" = false
    ∧ hasKey [] "response_model_json" = false
    ∧ ((Prompt.render jinjaFindVariables jinjaRenderModel
          (Prompt.init (some "Extract the entities."))
          [("user_input", "John is 40.")] (some "SCHEMA")).1
        = jinjaRenderModel
            ("Extract the entities." ++ "\n" ++ RESPONSE_MODEL_TEXT ++ "\n"
              ++ "\n" ++ "John is 40." ++ "\n")
            [("user_input", "John is 40."), ("response_model_json", "SCHEMA")]
      ∧ (Prompt.render jinjaFindVariables jinjaRenderModel
          (Prompt.init (some "Extract the entities."))
          [("user_input", "John is 40.")] (some "SCHEMA")).2.prompt
        = "Extract the entities."
      ∧ (Prompt.render jinjaFindVariables jinjaRenderModel
          (Prompt.render jinjaFindVariables jinjaRenderModel
            (Prompt.init (some "Extract the entities."))
            [("user_input", "John is 40.")] (some "SCHEMA")).2
          [("user_input", "John is 40.")] (some "SCHEMA")).1
        = (Prompt.render jinjaFindVariables jinjaRenderModel
            (Prompt.init (some "Extract the entities."))
            [("user_input", "John is 40.")] (some "SCHEMA")).1
      ∧ ("Extract the entities." ≠ ""
          → (Prompt.init (some "Extract the entities.")).prompt
            = "Extract the entities.")) := by
  refine ⟨rfl, rfl, rfl, ?_⟩
  have h := c6_render_appends_both_sections_and_is_stable jinjaFindVariables
    jinjaRenderModel "Extract the entities." "John is 40." "SCHEMA" []
    rfl rfl rfl
  have hp : (Prompt.init (some "Extract the entities.")).prompt
      = "Extract the entities." := rfl
  rw [hp] at h
  exact h

end Modelsmith
